import Mathlib

/-!
Shallow embedding of the `new_type_pair!` macro from `new_type_derive`
(src/src/new_type_pair.rs) together with the `NewTypeRef` contract
(src/src/traits.rs) and the `ShortId` example validator
(src/examples/identifier.rs).

The macro generates, for a chosen owned inner type `$itype` and the raw
slice type `$stype` (always `str`), an owned wrapper `$otype { inner: $itype }`
and a reference wrapper `$rtype { inner: $stype }`.  Here the raw slice type
is modelled as `String`; the owned inner type is a parameter `I` together
with the conversions the macro relies on (`Into<$itype>` as `into`,
`AsRef<$stype>` as `asRefInner`).  The reference wrapper is a value wrapper
around the raw string: Rust's `from_unchecked` pointer reinterpretation
becomes the identity on the payload.
-/

namespace NewTypeDerive

/-- The owned wrapper `$otype { inner: $itype }` (new_type_pair.rs lines 77-79). -/
structure Owned (I : Type) where
  inner : I
deriving DecidableEq, Repr

/-- The reference wrapper `$rtype { inner: $stype }` with `$stype = str`
(new_type_pair.rs lines 92-94); its payload is the referenced raw string. -/
structure View where
  inner : String
deriving DecidableEq, Repr

/-- `$otype::try_from` (new_type_pair.rs lines 83-87):
`let inner = value.into(); validate(inner.as_ref())?; Ok($otype { inner })`. -/
def tryFrom {E I S : Type} (validate : String → Except E Unit)
    (into : S → I) (asRefInner : I → String) (value : S) : Except E (Owned I) :=
  let inner := into value
  match validate (asRefInner inner) with
  | Except.error e => Except.error e
  | Except.ok _ => Except.ok ⟨inner⟩

/-- `$rtype::try_as_ref` (new_type_pair.rs lines 99-103):
`let inner_ref = value.as_ref(); validate(inner_ref)?;
Ok(unsafe { Self::from_unchecked(inner_ref) })`; `from_unchecked`
(lines 107-109) reinterprets the memory, so the view's payload is
`inner_ref` itself. -/
def tryAsRef {E S : Type} (validate : String → Except E Unit)
    (asRefS : S → String) (value : S) : Except E View :=
  let innerRef := asRefS value
  match validate innerRef with
  | Except.error e => Except.error e
  | Except.ok _ => Except.ok ⟨innerRef⟩

/-- `try_from` at the raw-string instantiation (`$itype = String`, as in the
macro's own `StrWrap` test type): `Into` and `AsRef` are identities. -/
def tryFromStr {E : Type} (validate : String → Except E Unit) (value : String) :
    Except E (Owned String) :=
  tryFrom validate id id value

/-- `try_as_ref` applied to a raw `str` value (`AsRef<str> for str` is the
identity). -/
def tryAsRefStr {E : Type} (validate : String → Except E Unit) (value : String) :
    Except E View :=
  tryAsRef validate id value

/-- `AsRef<$rtype> for $otype` (new_type_pair.rs lines 142-147):
`unsafe { $rtype::from_unchecked(self.inner.as_ref()) }`. -/
def ownedAsRef {I : Type} (asRefInner : I → String) (o : Owned I) : View :=
  ⟨asRefInner o.inner⟩

/-- `Deref for $otype` (new_type_pair.rs lines 112-119): `self.as_ref()`. -/
def ownedDeref {I : Type} (asRefInner : I → String) (o : Owned I) : View :=
  ownedAsRef asRefInner o

/-- `Borrow<$rtype> for $otype` (new_type_pair.rs lines 121-126):
`self.as_ref()`. -/
def ownedBorrow {I : Type} (asRefInner : I → String) (o : Owned I) : View :=
  ownedAsRef asRefInner o

/-- `AsRef<$stype> for $rtype` (new_type_pair.rs lines 149-154): `&self.inner`. -/
def viewAsRefStr (v : View) : String :=
  v.inner

/-- `Borrow<$stype> for $otype` (new_type_pair.rs lines 128-133):
`self.as_ref().as_ref()`. -/
def ownedBorrowStr {I : Type} (asRefInner : I → String) (o : Owned I) : String :=
  viewAsRefStr (ownedAsRef asRefInner o)

/-- `Borrow<$stype> for $rtype` (new_type_pair.rs lines 135-140):
`self.as_ref()`. -/
def viewBorrowStr (v : View) : String :=
  viewAsRefStr v

/-- `From<&$rtype> for $otype` (new_type_pair.rs lines 383-388): delegates to
the contract's `to_owned` (traits.rs line 25), supplied per domain type. -/
def fromViewToOwned {I : Type} (toOwnedC : View → Owned I) (v : View) : Owned I :=
  toOwnedC v

/-- `From<$otype> for $itype` (new_type_pair.rs lines 390-395): `o.inner`. -/
def ownedIntoInner {I : Type} (o : Owned I) : I :=
  o.inner

/-! ## Comparison / ordering lattice (new_type_pair.rs lines 163-381)

References collapse in the embedding (a `&T` operand dereferences to the same
comparison as the `T` operand), so each family of `impl`s differing only in
reference depth becomes one function.  Rust's `str`/`String` equality is
modelled by Lean's `String` `==`, and `str::partial_cmp` (which always returns
`Some` of lexicographic order) by `some (compare · ·)` on `String`. -/

/-- `str::partial_cmp` from the standard library: total, so always `some`. -/
def strPartialCmp (a b : String) : Option Ordering :=
  some (compare a b)

/-- The derived `PartialEq` on `$rtype` (field-wise, i.e. on the `str`
payloads). -/
def viewEq (a b : View) : Bool :=
  a.inner == b.inner

/-- The derived `PartialEq` on `$otype` at the raw-string instantiation
(field-wise on the `String` payloads). -/
def ownedEqStrInner (a b : Owned String) : Bool :=
  a.inner == b.inner

/-- `PartialEq<$otype> for $rtype` and for `&$rtype` (new_type_pair.rs lines
163-175): `self == rhs.as_ref()`, the derived `$rtype` equality against the
owned value's borrowed view. -/
def eqViewOwned {I : Type} (asRefInner : I → String) (v : View) (o : Owned I) : Bool :=
  viewEq v (ownedAsRef asRefInner o)

/-- `PartialEq<$rtype> for $stype` and the reference variants (new_type_pair.rs
lines 219-238): `self == &rhs.inner`. -/
def eqStrView (s : String) (v : View) : Bool :=
  s == v.inner

/-- `PartialEq<$stype> for $rtype` and the reference variants (new_type_pair.rs
lines 240-259): `&self.inner == rhs`. -/
def eqViewStr (v : View) (s : String) : Bool :=
  v.inner == s

/-- `PartialEq<$otype> for $stype` and for `&$stype` (new_type_pair.rs lines
177-189): `self == rhs.as_ref()`, i.e. the raw string against the owned
value's borrowed view. -/
def eqStrOwned {I : Type} (asRefInner : I → String) (s : String) (o : Owned I) : Bool :=
  eqStrView s (ownedAsRef asRefInner o)

/-- `PartialEq<$stype>`/`PartialEq<&$stype>` for `$otype` (new_type_pair.rs
lines 191-203): `self.as_ref() == *rhs`. -/
def eqOwnedStr {I : Type} (asRefInner : I → String) (o : Owned I) (s : String) : Bool :=
  eqViewStr (ownedAsRef asRefInner o) s

/-- `PartialEq<$rtype>`/`PartialEq<&$rtype>` for `$otype` (new_type_pair.rs
lines 205-217): `self.as_ref() == rhs`, the derived `$rtype` equality. -/
def eqOwnedView {I : Type} (asRefInner : I → String) (o : Owned I) (v : View) : Bool :=
  viewEq (ownedAsRef asRefInner o) v

/-- The derived `PartialOrd`/`Ord` on `$rtype` (field-wise on the `str`
payloads). -/
def viewCmp (a b : View) : Option Ordering :=
  strPartialCmp a.inner b.inner

/-- The derived `PartialOrd`/`Ord` on `$otype` at the raw-string
instantiation (field-wise on the `String` payloads). -/
def ownedCmpStrInner (a b : Owned String) : Option Ordering :=
  strPartialCmp a.inner b.inner

/-- `PartialOrd<$otype> for $rtype`/`&$rtype` (new_type_pair.rs lines
261-279): `partial_cmp(self, &rhs.as_ref())`, the derived `$rtype` order. -/
def cmpViewOwned {I : Type} (asRefInner : I → String) (v : View) (o : Owned I) :
    Option Ordering :=
  viewCmp v (ownedAsRef asRefInner o)

/-- `PartialOrd<$rtype> for $stype` and the reference variants
(new_type_pair.rs lines 341-360): `partial_cmp(self, &rhs.inner)`. -/
def cmpStrView (s : String) (v : View) : Option Ordering :=
  strPartialCmp s v.inner

/-- `PartialOrd<$stype> for $rtype` and the reference variants
(new_type_pair.rs lines 362-381): `partial_cmp(&self.inner, rhs)`. -/
def cmpViewStr (v : View) (s : String) : Option Ordering :=
  strPartialCmp v.inner s

/-- `PartialOrd<$otype> for $stype`/`&$stype` (new_type_pair.rs lines
281-299): `partial_cmp(self, &rhs.as_ref())` against the borrowed view. -/
def cmpStrOwned {I : Type} (asRefInner : I → String) (s : String) (o : Owned I) :
    Option Ordering :=
  cmpStrView s (ownedAsRef asRefInner o)

/-- `PartialOrd<$stype>`/`PartialOrd<&$stype>` for `$otype` (new_type_pair.rs
lines 321-339): `partial_cmp(&self.as_ref(), rhs)`. -/
def cmpOwnedStr {I : Type} (asRefInner : I → String) (o : Owned I) (s : String) :
    Option Ordering :=
  cmpViewStr (ownedAsRef asRefInner o) s

/-- `PartialOrd<$rtype>`/`PartialOrd<&$rtype>` for `$otype` (new_type_pair.rs
lines 301-319): `partial_cmp(&self.as_ref(), rhs)`, the derived `$rtype`
order. -/
def cmpOwnedView {I : Type} (asRefInner : I → String) (o : Owned I) (v : View) :
    Option Ordering :=
  viewCmp (ownedAsRef asRefInner o) v

/-- An operand of the comparison lattice at the raw-string instantiation:
an owned wrapper, a reference wrapper, or a raw string. -/
inductive Form where
  | fOwned : Owned String → Form
  | fView : View → Form
  | fRaw : String → Form
deriving DecidableEq, Repr

/-- Canonicalize an operand to the raw representation. -/
def Form.proj : Form → String
  | Form.fOwned o => o.inner
  | Form.fView v => v.inner
  | Form.fRaw s => s

/-- Equality on any pairing of the lattice, dispatching to the `impl`
generated for that pairing (raw/raw is the inherited `str` equality). -/
def formEq : Form → Form → Bool
  | Form.fOwned a, Form.fOwned b => ownedEqStrInner a b
  | Form.fOwned a, Form.fView b => eqOwnedView id a b
  | Form.fOwned a, Form.fRaw b => eqOwnedStr id a b
  | Form.fView a, Form.fOwned b => eqViewOwned id a b
  | Form.fView a, Form.fView b => viewEq a b
  | Form.fView a, Form.fRaw b => eqViewStr a b
  | Form.fRaw a, Form.fOwned b => eqStrOwned id a b
  | Form.fRaw a, Form.fView b => eqStrView a b
  | Form.fRaw a, Form.fRaw b => a == b

/-- Partial ordering on any pairing of the lattice, dispatching to the `impl`
generated for that pairing (raw/raw is the inherited `str` order). -/
def formCmp : Form → Form → Option Ordering
  | Form.fOwned a, Form.fOwned b => ownedCmpStrInner a b
  | Form.fOwned a, Form.fView b => cmpOwnedView id a b
  | Form.fOwned a, Form.fRaw b => cmpOwnedStr id a b
  | Form.fView a, Form.fOwned b => cmpViewOwned id a b
  | Form.fView a, Form.fView b => viewCmp a b
  | Form.fView a, Form.fRaw b => cmpViewStr a b
  | Form.fRaw a, Form.fOwned b => cmpStrOwned id a b
  | Form.fRaw a, Form.fView b => cmpStrView a b
  | Form.fRaw a, Form.fRaw b => strPartialCmp a b

/-! ## Serialization adapter (new_type_pair.rs lines 397-429)

`serialize_str` hands the raw string content to the serializer with no
wrapper framing; the encoding is modelled as that raw string itself.
Deserialization is modelled from the point where the serialization layer has
decoded a raw payload: the generated code then funnels it through the
validated constructor, mapping a validation error to
`serde::de::Error::custom(e.to_string())`. -/

/-- The serialization layer's generic custom-error shape
(`serde::de::Error::custom`), carrying a textual description. -/
inductive DeError where
  | custom : String → DeError
deriving DecidableEq, Repr

/-- The wire encoding produced by `Serializer::serialize_str`: the raw string
content, no extra framing. -/
def serializeRaw (s : String) : String :=
  s

/-- `Serialize for $otype` (new_type_pair.rs lines 398-403):
`serialize_str(AsRef::<$stype>::as_ref(AsRef::<$rtype>::as_ref(&self)))`. -/
def serializeOwned {I : Type} (asRefInner : I → String) (o : Owned I) : String :=
  serializeRaw (viewAsRefStr (ownedAsRef asRefInner o))

/-- `Serialize for $rtype` (new_type_pair.rs lines 415-420):
`serialize_str(AsRef::<$stype>::as_ref(&self))`. -/
def serializeView (v : View) : String :=
  serializeRaw (viewAsRefStr v)

/-- `Deserialize for $otype` (new_type_pair.rs lines 406-412): decode an
`$itype` payload, then `$otype::try_from(inner)` with the error mapped to
`Error::custom(e.to_string())`.  `try_from` on an `$itype` value uses the
identity `Into`. -/
def deserializeOwned {E I : Type} (validate : String → Except E Unit)
    (asRefInner : I → String) (eToString : E → String) (input : I) :
    Except DeError (Owned I) :=
  match tryFrom validate id asRefInner input with
  | Except.error e => Except.error (DeError.custom (eToString e))
  | Except.ok o => Except.ok o

/-- `Deserialize for &$rtype` (new_type_pair.rs lines 423-429): decode a
borrowed `$stype` payload, then `$rtype::try_as_ref(inner)` with the error
mapped to `Error::custom(e.to_string())`. -/
def deserializeRef {E : Type} (validate : String → Except E Unit)
    (eToString : E → String) (input : String) : Except DeError View :=
  match tryAsRef validate id input with
  | Except.error e => Except.error (DeError.custom (eToString e))
  | Except.ok v => Except.ok v

/-! ## The `ShortId` example validator (examples/identifier.rs lines 27-35)

`value.len()` on a Rust `str` is its UTF-8 byte length, modelled by
`String.utf8ByteSize`; `value.is_empty()` is `len == 0`. -/

/-- `ShortIdRef::validate` (identifier.rs lines 27-35): reject the empty
string with `"Empty string"`, reject byte length above 8 with `"Too long"`,
accept otherwise. -/
def shortIdValidate (value : String) : Except String Unit :=
  if value.utf8ByteSize == 0 then Except.error "Empty string"
  else if value.utf8ByteSize > 8 then Except.error "Too long"
  else Except.ok ()

/-- `ShortIdRef::to_owned` (identifier.rs lines 37-42): copies the referenced
string into the owned wrapper's inline buffer (`ArrayString::from(&self.inner)`,
content-preserving; the capacity check cannot fire on pre-validated data).
The inline buffer is modelled by its string content. -/
def shortIdToOwned (v : View) : Owned String :=
  ⟨v.inner⟩

/-! ## Helper lemmas -/

/-- Unfolding `tryFrom`: it validates the converted payload and wraps it. -/
theorem tryFrom_eq_match {E I S : Type} (validate : String → Except E Unit)
    (into : S → I) (asRefInner : I → String) (x : S) :
    tryFrom validate into asRefInner x =
      match validate (asRefInner (into x)) with
      | Except.error e => Except.error e
      | Except.ok _ => Except.ok ⟨into x⟩ :=
  rfl

/-- Unfolding `tryAsRef`: it validates the referenced payload and wraps it. -/
theorem tryAsRef_eq_match {E S : Type} (validate : String → Except E Unit)
    (asRefS : S → String) (x : S) :
    tryAsRef validate asRefS x =
      match validate (asRefS x) with
      | Except.error e => Except.error e
      | Except.ok _ => Except.ok ⟨asRefS x⟩ :=
  rfl

/-- Every pairing of the equality lattice agrees with comparing the raw
projections. -/
theorem formEq_proj (a b : Form) : formEq a b = (a.proj == b.proj) := by
  cases a <;> cases b <;> rfl

/-- Every pairing of the ordering lattice agrees with ordering the raw
projections, and is total (always `some`). -/
theorem formCmp_proj (a b : Form) : formCmp a b = some (compare a.proj b.proj) := by
  cases a <;> cases b <;> rfl

/-- A successful `try_from` yields a payload accepted by `validate`. -/
theorem tryFrom_ok_valid {E I S : Type} (validate : String → Except E Unit)
    (into : S → I) (asRefInner : I → String) (x : S) (o : Owned I)
    (h : tryFrom validate into asRefInner x = Except.ok o) :
    validate (asRefInner o.inner) = Except.ok () := by
  rw [tryFrom_eq_match] at h
  cases hv : validate (asRefInner (into x)) with
  | error e =>
      rw [hv] at h
      exact Except.noConfusion h
  | ok u =>
      rw [hv] at h
      cases u
      rw [Except.ok.injEq] at h
      rw [← h]
      exact hv

/-- A successful `try_as_ref` yields a payload accepted by `validate`. -/
theorem tryAsRef_ok_valid {E S : Type} (validate : String → Except E Unit)
    (asRefS : S → String) (x : S) (v : View)
    (h : tryAsRef validate asRefS x = Except.ok v) :
    validate v.inner = Except.ok () := by
  rw [tryAsRef_eq_match] at h
  cases hv : validate (asRefS x) with
  | error e =>
      rw [hv] at h
      exact Except.noConfusion h
  | ok u =>
      rw [hv] at h
      cases u
      rw [Except.ok.injEq] at h
      rw [← h]
      exact hv

/-- A successful `try_from` stores exactly the converted input. -/
theorem tryFrom_ok_inner {E I S : Type} (validate : String → Except E Unit)
    (into : S → I) (asRefInner : I → String) (x : S) (o : Owned I)
    (h : tryFrom validate into asRefInner x = Except.ok o) :
    o.inner = into x := by
  rw [tryFrom_eq_match] at h
  cases hv : validate (asRefInner (into x)) with
  | error e =>
      rw [hv] at h
      exact Except.noConfusion h
  | ok u =>
      rw [hv] at h
      rw [Except.ok.injEq] at h
      rw [← h]

/-- A successful `try_as_ref` points at exactly the referenced input. -/
theorem tryAsRef_ok_inner {E S : Type} (validate : String → Except E Unit)
    (asRefS : S → String) (x : S) (v : View)
    (h : tryAsRef validate asRefS x = Except.ok v) :
    v.inner = asRefS x := by
  rw [tryAsRef_eq_match] at h
  cases hv : validate (asRefS x) with
  | error e =>
      rw [hv] at h
      exact Except.noConfusion h
  | ok u =>
      rw [hv] at h
      rw [Except.ok.injEq] at h
      rw [← h]

/-! ## Claim theorems -/

/-- C2 — Constructor agreement: for every raw input `x`, `try_from x`
succeeds iff `try_as_ref x` succeeds; when both fail the errors are equal;
when both succeed the owned value and the view compare equal (via the
generated `PartialEq<$rtype> for $otype`). -/
theorem constructor_agreement {E : Type} (validate : String → Except E Unit)
    (x : String) :
    ((∃ o, tryFromStr validate x = Except.ok o) ↔
      (∃ v, tryAsRefStr validate x = Except.ok v)) ∧
    (∀ e₁ e₂, tryFromStr validate x = Except.error e₁ →
      tryAsRefStr validate x = Except.error e₂ → e₁ = e₂) ∧
    (∀ o v, tryFromStr validate x = Except.ok o →
      tryAsRefStr validate x = Except.ok v → eqOwnedView id o v = true) := by
  unfold tryFromStr tryAsRefStr
  rw [tryFrom_eq_match, tryAsRef_eq_match]
  simp only [id]
  cases hv : validate x with
  | error e =>
      refine ⟨?_, ?_, ?_⟩
      · constructor <;> rintro ⟨w, hw⟩ <;> simp at hw
      · intro e₁ e₂ h₁ h₂
        rw [Except.error.injEq] at h₁ h₂
        rw [← h₁, ← h₂]
      · intro o v ho _
        simp at ho
  | ok u =>
      refine ⟨?_, ?_, ?_⟩
      · exact ⟨fun _ => ⟨⟨x⟩, rfl⟩, fun _ => ⟨⟨x⟩, rfl⟩⟩
      · intro e₁ e₂ h₁ _
        simp at h₁
      · intro o v ho hr
        rw [Except.ok.injEq] at ho hr
        rw [← ho, ← hr]
        simp [eqOwnedView, viewEq, ownedAsRef]

/-- C2 witness: concrete instantiation at the `ShortId` validator and input
`"abc"`. -/
theorem constructor_agreement_witness :
    eqOwnedView id (⟨"abc"⟩ : Owned String) (⟨"abc"⟩ : View) = true :=
  (constructor_agreement shortIdValidate "abc").2.2 ⟨"abc"⟩ ⟨"abc"⟩ rfl rfl

/-- C3 — Comparison/ordering lattice correctness: for any two operands from
{Owned, View, Raw} (the reference-depth variants of each Rust `impl` collapse
to the same comparison), equality and partial ordering equal the result of
projecting both operands to the raw string and comparing those; consequently
mixed-form equality is transitive, and the ordering is total (always `some`)
and consistent with the raw string's own ordering. -/
theorem comparison_lattice (a b c : Form) :
    formEq a b = (a.proj == b.proj) ∧
    formCmp a b = some (compare a.proj b.proj) ∧
    (formEq a b = true → formEq b c = true → formEq a c = true) := by
  refine ⟨formEq_proj a b, formCmp_proj a b, ?_⟩
  intro hab hbc
  rw [formEq_proj] at hab hbc ⊢
  rw [beq_iff_eq] at hab hbc ⊢
  rw [hab, hbc]

/-- C3 witness: mixed-form equality chained through all three forms at a
concrete string. -/
theorem comparison_lattice_witness :
    formEq (Form.fOwned ⟨"ab"⟩) (Form.fRaw "ab") = true :=
  (comparison_lattice (Form.fOwned ⟨"ab"⟩) (Form.fView ⟨"ab"⟩)
      (Form.fRaw "ab")).2.2 rfl rfl

/-- C8 — Owned-to-view borrow is total and validation-free: all three
accessors (`AsRef`, `Deref`, `Borrow`) are total functions that take no
validator, return the same view, and that view's payload is exactly the
owned value's payload projected to the raw string. -/
theorem borrow_total_validation_free {I : Type} (asRefInner : I → String)
    (o : Owned I) :
    ownedDeref asRefInner o = ownedAsRef asRefInner o ∧
    ownedBorrow asRefInner o = ownedAsRef asRefInner o ∧
    (ownedAsRef asRefInner o).inner = asRefInner o.inner :=
  ⟨rfl, rfl, rfl⟩

/-- C1 — Global validity invariant: every public construction path (the
owned constructor, the reference constructor, and both serde deserialize
paths) yields a wrapper whose payload passes `validate`, and the public
operations producing wrappers from wrappers (borrowing a view from an owned
value; the contract's `to_owned`, under its content-preservation obligation)
keep the payload valid.  Since both wrappers are immutable, validity is
preserved for the lifetime of every publicly reachable instance, including
across serialization boundaries. -/
theorem global_validity_invariant {E I S : Type} (validate : String → Except E Unit)
    (into : S → I) (asRefInner : I → String) (eToString : E → String)
    (toOwnedC : View → Owned I)
    (hContract : ∀ v : View, validate v.inner = Except.ok () →
      asRefInner (toOwnedC v).inner = v.inner) :
    (∀ (x : S) o, tryFrom validate into asRefInner x = Except.ok o →
      validate (asRefInner o.inner) = Except.ok ()) ∧
    (∀ (x : String) v, tryAsRefStr validate x = Except.ok v →
      validate v.inner = Except.ok ()) ∧
    (∀ (input : I) o, deserializeOwned validate asRefInner eToString input = Except.ok o →
      validate (asRefInner o.inner) = Except.ok ()) ∧
    (∀ (input : String) v, deserializeRef validate eToString input = Except.ok v →
      validate v.inner = Except.ok ()) ∧
    (∀ o : Owned I, validate (asRefInner o.inner) = Except.ok () →
      validate ((ownedAsRef asRefInner o).inner) = Except.ok ()) ∧
    (∀ v : View, validate v.inner = Except.ok () →
      validate (asRefInner (fromViewToOwned toOwnedC v).inner) = Except.ok ()) := by
  refine ⟨fun x o h => tryFrom_ok_valid validate into asRefInner x o h,
    fun x v h => tryAsRef_ok_valid validate id x v h, ?_, ?_, fun o h => h, ?_⟩
  · intro input o h
    unfold deserializeOwned at h
    cases ht : tryFrom validate id asRefInner input with
    | error e =>
        rw [ht] at h
        exact Except.noConfusion h
    | ok o' =>
        rw [ht] at h
        rw [Except.ok.injEq] at h
        rw [← h]
        exact tryFrom_ok_valid validate id asRefInner input o' ht
  · intro input v h
    unfold deserializeRef at h
    cases ht : tryAsRef validate id input with
    | error e =>
        rw [ht] at h
        exact Except.noConfusion h
    | ok v' =>
        rw [ht] at h
        rw [Except.ok.injEq] at h
        rw [← h]
        exact tryAsRef_ok_valid validate id input v' ht
  · intro v hv
    rw [fromViewToOwned, hContract v hv]
    exact hv

/-- C1 witness: the invariant instantiated at the `ShortId` contract; the
reference constructor on `"abc"` yields a view whose payload `validate`
accepts. -/
theorem global_validity_invariant_witness :
    shortIdValidate "abc" = Except.ok () :=
  (global_validity_invariant shortIdValidate id id id shortIdToOwned
      (fun _ _ => rfl)).2.1 "abc" ⟨"abc"⟩ rfl

/-- C4 — Serialization round-trip and raw-string encoding: for every input
`x` accepted into an owned value, deserializing its serialization yields the
same owned value; its serialization is exactly the raw-string encoding of
`x`; and the owned wrapper and its borrowed reference wrapper serialize
identically (no extra framing). -/
theorem serialization_roundtrip {E : Type} (validate : String → Except E Unit)
    (eToString : E → String) (x : String) (o : Owned String)
    (h : tryFromStr validate x = Except.ok o) :
    deserializeOwned validate id eToString (serializeOwned id o) = Except.ok o ∧
    serializeOwned id o = serializeRaw x ∧
    serializeOwned id o = serializeView (ownedAsRef id o) := by
  have hinner : o.inner = x := tryFrom_ok_inner validate id id x o h
  refine ⟨?_, ?_, rfl⟩
  · unfold deserializeOwned
    have hso : serializeOwned id o = x := hinner
    rw [hso]
    rw [show tryFrom validate id id x = tryFromStr validate x from rfl, h]
  · exact hinner

/-- C4 witness: the round trip at the `ShortId` validator and `"abcdefgh"`. -/
theorem serialization_roundtrip_witness :
    serializeOwned id (⟨"abcdefgh"⟩ : Owned String) = serializeRaw "abcdefgh" :=
  (serialization_roundtrip shortIdValidate id "abcdefgh" ⟨"abcdefgh"⟩ rfl).2.1

/-- C5 — View-to-owned-to-view round trip: a view constructed by
`try_as_ref`, converted to an owned value by the contract's `to_owned`
(a total function here, so the conversion cannot fail), and borrowed back,
equals the original view.  The contract hypothesis is `to_owned`'s
content-preservation obligation on validated data (traits.rs lines 21-25). -/
theorem view_owned_view_roundtrip {E I : Type} (validate : String → Except E Unit)
    (asRefInner : I → String) (toOwnedC : View → Owned I)
    (hContract : ∀ v : View, validate v.inner = Except.ok () →
      asRefInner (toOwnedC v).inner = v.inner)
    (x : String) (v : View) (hv : tryAsRefStr validate x = Except.ok v) :
    ownedBorrow asRefInner (fromViewToOwned toOwnedC v) = v := by
  have hvalid : validate v.inner = Except.ok () :=
    tryAsRef_ok_valid validate id x v hv
  have hpres := hContract v hvalid
  unfold ownedBorrow ownedAsRef fromViewToOwned
  cases v with
  | mk s =>
      rw [View.mk.injEq]
      exact hpres

/-- C5 witness: the round trip at the `ShortId` contract and `"abc"`. -/
theorem view_owned_view_roundtrip_witness :
    ownedBorrow id (fromViewToOwned shortIdToOwned ⟨"abc"⟩) = (⟨"abc"⟩ : View) :=
  view_owned_view_roundtrip shortIdValidate id shortIdToOwned
    (fun _ _ => rfl) "abc" ⟨"abc"⟩ rfl

/-- C6 — Owned-to-raw round trip: unwrapping an owned value built by
`try_from` from raw input `x` returns `x`; the unwrap (`From<$otype> for
$itype`) is a total projection that takes no validator, so it always
succeeds without re-running validation. -/
theorem owned_raw_roundtrip {E : Type} (validate : String → Except E Unit)
    (x : String) (o : Owned String) (h : tryFromStr validate x = Except.ok o) :
    ownedIntoInner o = x :=
  tryFrom_ok_inner validate id id x o h

/-- C6 witness: the unwrap at the `ShortId` validator and `"xy"`. -/
theorem owned_raw_roundtrip_witness :
    ownedIntoInner (⟨"xy"⟩ : Owned String) = "xy" :=
  owned_raw_roundtrip shortIdValidate "xy" ⟨"xy"⟩ rfl

/-- C7 — Error propagation and atomicity: when `validate` rejects the raw
input with error `e`, both constructors return exactly `e` to the immediate
caller (the `Result` is an error, so no wrapper value exists, and the
functions are pure, so no retry occurs), and both deserialize paths return
the serialization layer's custom error carrying `e`'s textual description. -/
theorem error_propagation {E : Type} (validate : String → Except E Unit)
    (eToString : E → String) (x : String) (e : E)
    (he : validate x = Except.error e) :
    tryFromStr validate x = Except.error e ∧
    tryAsRefStr validate x = Except.error e ∧
    deserializeOwned validate id eToString x =
      Except.error (DeError.custom (eToString e)) ∧
    deserializeRef validate eToString x =
      Except.error (DeError.custom (eToString e)) := by
  have h1 : tryFromStr validate x = Except.error e := by
    unfold tryFromStr
    rw [tryFrom_eq_match]
    simp only [id]
    rw [he]
  have h2 : tryAsRefStr validate x = Except.error e := by
    unfold tryAsRefStr
    rw [tryAsRef_eq_match]
    simp only [id]
    rw [he]
  refine ⟨h1, h2, ?_, ?_⟩
  · unfold deserializeOwned
    rw [show tryFrom validate id id x = tryFromStr validate x from rfl, h1]
  · unfold deserializeRef
    rw [show tryAsRef validate id x = tryAsRefStr validate x from rfl, h2]

/-- C7 witness: the `ShortId` validator rejecting a nine-byte string. -/
theorem error_propagation_witness :
    tryFromStr shortIdValidate "123456789" = Except.error "Too long" :=
  (error_propagation shortIdValidate id "123456789" "Too long" rfl).1

/-- C10 — Content preservation at the public interface: a successful
`try_as_ref` yields a view whose `AsRef<str>` projection is exactly the
referenced input, and a successful `try_from` stores exactly the converted
input (`value.into()`), with no further transformation. -/
theorem content_preservation {E I S : Type} (validate : String → Except E Unit)
    (into : S → I) (asRefInner : I → String) (asRefS : S → String) :
    (∀ (x : S) v, tryAsRef validate asRefS x = Except.ok v →
      viewAsRefStr v = asRefS x) ∧
    (∀ (x : S) o, tryFrom validate into asRefInner x = Except.ok o →
      ownedIntoInner o = into x) :=
  ⟨fun x v h => tryAsRef_ok_inner validate asRefS x v h,
    fun x o h => tryFrom_ok_inner validate into asRefInner x o h⟩

/-- C10 witness: content preservation at the `ShortId` validator and `"ab"`. -/
theorem content_preservation_witness :
    viewAsRefStr (⟨"ab"⟩ : View) = "ab" :=
  (content_preservation shortIdValidate id id id).1 "ab" ⟨"ab"⟩ rfl

/-- C9 — Concrete `ShortId` scenario (max byte length 8): `""` fails with the
"Empty string" error from both constructors; `"abcdefgh"` succeeds in both
and the results compare equal to each other and to the literal;
`"abcdefghi"` fails with the "Too long" error from both constructors (equal
error values); serializing the successful owned value and deserializing it
back yields an equal owned value. -/
theorem short_id_scenario :
    (tryFromStr shortIdValidate "" = Except.error "Empty string" ∧
      tryAsRefStr shortIdValidate "" = Except.error "Empty string") ∧
    (tryFromStr shortIdValidate "abcdefgh" = Except.ok ⟨"abcdefgh"⟩ ∧
      tryAsRefStr shortIdValidate "abcdefgh" = Except.ok ⟨"abcdefgh"⟩ ∧
      eqOwnedView id (⟨"abcdefgh"⟩ : Owned String) (⟨"abcdefgh"⟩ : View) = true ∧
      eqOwnedStr id (⟨"abcdefgh"⟩ : Owned String) "abcdefgh" = true ∧
      eqViewStr (⟨"abcdefgh"⟩ : View) "abcdefgh" = true) ∧
    (tryFromStr shortIdValidate "abcdefghi" = Except.error "Too long" ∧
      tryAsRefStr shortIdValidate "abcdefghi" = Except.error "Too long") ∧
    deserializeOwned shortIdValidate id id
        (serializeOwned id (⟨"abcdefgh"⟩ : Owned String)) =
      Except.ok ⟨"abcdefgh"⟩ :=
  ⟨⟨rfl, rfl⟩, ⟨rfl, rfl, rfl, rfl, rfl⟩, ⟨rfl, rfl⟩, rfl⟩

end NewTypeDerive
